import Mathlib

/-!
Shallow embedding of the safety-net analysis engine
(`src/utils/safetyNetAnalyzer.js`, class `SafetyNetAnalyzer`).

Configuration fields are JavaScript numbers supplied as decimal literals,
modelled as rationals; the numerical computations of the engine
(trigonometry, square roots, the bisection solver) are modelled over the
exact reals.  `Infinity`, produced for the safety factor when the peak
stress is zero, is modelled as the top element of `EReal`.

Naming follows the source: `validateConfig`, `calculateStiffnessCoefficients`
(for `_calculateStiffnessCoefficients`), `calculateMaxDeflection`,
`calculateMaxStress`, `Analyzer.analyze`.  Two field renamings were forced
by the development's naming conventions: `max_deflection_frac` stands for
the source field `max_deflection_ratio` and `damping_coeff` for the source
field `damping_ratio`.
-/

namespace SafetyNet

/-- Material section of a configuration (source: `config.material`). -/
structure Material where
  name : String
  elastic_modulus : ℚ
  yield_strength : ℚ
  density : ℚ
  cross_section_area : ℚ
  strain_limit : ℚ
  deriving DecidableEq

/-- Geometry section (source: `config.geometry`).  The field
`max_deflection_frac` is the source field `max_deflection_ratio`. -/
structure Geometry where
  net_span : ℚ
  num_strands : ℚ
  installation_angle : ℚ
  safety_factor_min : ℚ
  max_deflection_frac : ℚ
  deriving DecidableEq

/-- Impact section (source: `config.impact`). -/
structure Impact where
  mass : ℚ
  fall_height : ℚ
  impact_velocity : ℚ
  deriving DecidableEq

/-- Analysis section (source: `config.analysis`).  The field
`damping_coeff` is the source field `damping_ratio`. -/
structure AnalysisParams where
  analysis_type : String
  max_iterations : ℚ
  convergence_tolerance : ℚ
  include_damping : Bool
  damping_coeff : ℚ
  deriving DecidableEq

/-- A full configuration record. -/
structure Config where
  scenario_name : String
  material : Material
  geometry : Geometry
  impact : Impact
  analysis : AnalysisParams
  deriving DecidableEq

/-- Gravitational acceleration, `this.g = 9.81` in the source. -/
noncomputable def gravity : ℝ := 9.81

/-- Source method `validateConfig`: returns the list of violated
constraints, in source order.  A JavaScript guard `!x || x <= 0` on a
(non-NaN) number `x` is truthy exactly when `x = 0 ∨ x ≤ 0`, which is kept
literally. -/
def validateConfig (c : Config) : List String :=
  (if c.material.elastic_modulus = 0 ∨ c.material.elastic_modulus ≤ 0 then
    ["Material elastic modulus must be positive"] else []) ++
  (if c.material.yield_strength = 0 ∨ c.material.yield_strength ≤ 0 then
    ["Material yield strength must be positive"] else []) ++
  (if c.geometry.net_span = 0 ∨ c.geometry.net_span ≤ 0 then
    ["Net span must be positive"] else []) ++
  (if c.geometry.num_strands = 0 ∨ c.geometry.num_strands ≤ 0 then
    ["Number of strands must be positive"] else []) ++
  (if c.impact.mass = 0 ∨ c.impact.mass ≤ 0 then
    ["Impact mass must be positive"] else []) ++
  (if c.impact.fall_height = 0 ∨ c.impact.fall_height ≤ 0 then
    ["Fall height must be positive"] else [])

/-- The stiffness coefficient triple `(k1, k2, k3)`. -/
structure StiffnessCoefficients where
  k1 : ℝ
  k2 : ℝ
  k3 : ℝ

/-- The estimated deformation angle of `_calculateStiffnessCoefficients`:
`delta_est = 0.1 * net_span`, `theta = atan(delta_est / (net_span / 2))`. -/
noncomputable def theta (c : Config) : ℝ :=
  Real.arctan ((0.1 * (c.geometry.net_span : ℝ)) / ((c.geometry.net_span : ℝ) / 2))

/-- Source method `_calculateStiffnessCoefficients`. -/
noncomputable def calculateStiffnessCoefficients (c : Config) : StiffnessCoefficients :=
  { k1 := ((c.geometry.num_strands : ℝ) * (c.material.elastic_modulus : ℝ) *
        (c.material.cross_section_area : ℝ) / (c.geometry.net_span : ℝ)) *
      (Real.cos (theta c)) ^ 2
    k2 := ((c.geometry.num_strands : ℝ) * (c.material.elastic_modulus : ℝ) *
        (c.material.cross_section_area : ℝ) / ((c.geometry.net_span : ℝ) ^ 2)) *
      Real.sin (theta c) * (Real.cos (theta c)) ^ 2
    k3 := ((c.geometry.num_strands : ℝ) * (c.material.elastic_modulus : ℝ) *
        (c.material.cross_section_area : ℝ) / ((c.geometry.net_span : ℝ) ^ 3)) *
      (Real.sin (theta c)) ^ 2 * (Real.cos (theta c)) ^ 2 }

/-- The closure `energyEquation` of `_calculateMaxDeflection`:
strain energy stored at deflection `δ` minus the impact energy `m·g·h`. -/
noncomputable def energyEquation (k1 k2 k3 mass fall_height δ : ℝ) : ℝ :=
  0.5 * k1 * δ ^ 2 + (1 / 3) * k2 * δ ^ 3 + 0.25 * k3 * δ ^ 4 -
    mass * gravity * fall_height

/-- The bisection loop of `_calculateMaxDeflection`.  The fuel counts the
remaining iterations of `for (let i = 0; i < maxIterations; i++)`; `none`
means the loop ran out of iterations without meeting the tolerance, in
which case the source falls through to the linear fallback. -/
noncomputable def bisectLoop (f : ℝ → ℝ) (tol : ℝ) : ℕ → ℝ → ℝ → Option ℝ
  | 0, _, _ => none
  | n + 1, left, right =>
    let mid := (left + right) / 2
    if |f mid| < tol then some (max 0 mid)
    else if 0 < f mid then bisectLoop f tol n left mid
    else bisectLoop f tol n mid right

/-- Source method `_calculateMaxDeflection`: bisection over
`[0, net_span * 0.5]` with hardcoded `tolerance = 1e-6` and
`maxIterations = 100`; on loop exit the linear fallback
`min(m·g·h / k1, net_span * 0.5)`. -/
noncomputable def calculateMaxDeflection (k1 k2 k3 : ℝ) (c : Config) : ℝ :=
  match bisectLoop
      (energyEquation k1 k2 k3 (c.impact.mass : ℝ) (c.impact.fall_height : ℝ))
      1e-6 100 0 ((c.geometry.net_span : ℝ) * 0.5) with
  | some d => d
  | none =>
    min ((c.impact.mass : ℝ) * gravity * (c.impact.fall_height : ℝ) / k1)
      ((c.geometry.net_span : ℝ) * 0.5)

/-- Source method `_calculateMaxStress`. -/
noncomputable def calculateMaxStress (c : Config) (delta_max : ℝ) : ℝ :=
  (c.material.elastic_modulus : ℝ) *
    ((Real.sqrt ((c.geometry.net_span : ℝ) ^ 2 + delta_max ^ 2) -
        (c.geometry.net_span : ℝ)) / (c.geometry.net_span : ℝ))

/-- Structural response block of a result. -/
structure StructuralResponse where
  max_deflection : ℝ
  max_stress : ℝ
  safety_factor : EReal
  strain : ℝ

/-- Design limit block of a result. -/
structure DesignLimits where
  max_deflection_limit : ℝ
  min_safety_factor : ℝ
  max_strain_limit : ℝ

/-- Design check block of a result. -/
structure DesignChecks where
  deflection_ok : Bool
  stress_ok : Bool
  strain_ok : Bool
  overall_safe : Bool

/-- The result object stored in `this.results` and returned by `analyze`. -/
structure AnalysisResult where
  scenario_name : String
  input_parameters : Config
  structural_response : StructuralResponse
  design_limits : DesignLimits
  design_checks : DesignChecks
  stiffness_coefficients : StiffnessCoefficients

open Classical in
/-- The computational body of `analyze` after validation has passed
(source lines 57-104). -/
noncomputable def computeResult (c : Config) : AnalysisResult :=
  let ks := calculateStiffnessCoefficients c
  let delta_max := calculateMaxDeflection ks.k1 ks.k2 ks.k3 c
  let sigma_max := calculateMaxStress c delta_max
  let safety_factor : EReal :=
    if 0 < sigma_max then (((c.material.yield_strength : ℝ) / sigma_max : ℝ) : EReal)
    else ⊤
  let strain := (Real.sqrt ((c.geometry.net_span : ℝ) ^ 2 + delta_max ^ 2) -
      (c.geometry.net_span : ℝ)) / (c.geometry.net_span : ℝ)
  let max_deflection_limit :=
    (c.geometry.max_deflection_frac : ℝ) * (c.geometry.net_span : ℝ)
  { scenario_name := c.scenario_name
    input_parameters := c
    structural_response :=
      { max_deflection := delta_max
        max_stress := sigma_max
        safety_factor := safety_factor
        strain := strain }
    design_limits :=
      { max_deflection_limit := max_deflection_limit
        min_safety_factor := (c.geometry.safety_factor_min : ℝ)
        max_strain_limit := (c.material.strain_limit : ℝ) }
    design_checks :=
      { deflection_ok := decide (delta_max ≤ max_deflection_limit)
        stress_ok := decide (((c.geometry.safety_factor_min : ℝ) : EReal) ≤ safety_factor)
        strain_ok := decide (strain ≤ (c.material.strain_limit : ℝ))
        overall_safe := decide (delta_max ≤ max_deflection_limit) &&
          decide (((c.geometry.safety_factor_min : ℝ) : EReal) ≤ safety_factor) &&
          decide (strain ≤ (c.material.strain_limit : ℝ)) }
    stiffness_coefficients := ks }

/-- The analyzer object: configuration plus the mutable `this.results`
slot, which `analyze` overwrites on success. -/
structure Analyzer where
  config : Config
  results : Option AnalysisResult

/-- Source method `analyze`: on a non-empty violation list it throws
(`Configuration errors: ...`, carrying the joined violation messages,
modelled by the message list); otherwise it computes, stores and returns
the result. -/
noncomputable def Analyzer.analyze (a : Analyzer) :
    Except (List String) (AnalysisResult × Analyzer) :=
  if validateConfig a.config = [] then
    .ok (computeResult a.config, { a with results := some (computeResult a.config) })
  else
    .error (validateConfig a.config)

/-! ## Concrete configurations used for witnesses and counterexamples -/

/-- A material with unit modulus, strength and cross-section. -/
def matW : Material :=
  { name := "Test Material", elastic_modulus := 1, yield_strength := 1,
    density := 1, cross_section_area := 1, strain_limit := 1/10 }

/-- A one-metre single-strand geometry. -/
def geoW : Geometry :=
  { net_span := 1, num_strands := 1, installation_angle := 0,
    safety_factor_min := 2, max_deflection_frac := 3/20 }

/-- Default analysis parameters (tolerance `1e-6`, 100 iterations). -/
def anaW : AnalysisParams :=
  { analysis_type := "impact", max_iterations := 100,
    convergence_tolerance := 1/1000000, include_damping := false,
    damping_coeff := 1/20 }

/-- Impact with mass `100/981` (so that `mass * 9.81 = 1` exactly) and a
given fall height. -/
def impW (h : ℚ) : Impact :=
  { mass := 100/981, fall_height := h, impact_velocity := 0 }

/-- Family of valid test configurations parametrised by fall height. -/
def cfgH (h : ℚ) : Config :=
  { scenario_name := "Test Scenario", material := matW, geometry := geoW,
    impact := impW h, analysis := anaW }

/-- Fall height `0.03106634`: the bisection meets the tolerance at the
very first midpoint `0.25`. -/
def cfgM1 : Config := cfgH (3106634/100000000)

/-- Fall height `0.2`: the impact energy exceeds the strain energy the
bracket can store, the loop exhausts its 100 iterations and the linear
fallback is returned. -/
def cfgM2 : Config := cfgH (1/5)

/-- Fall height `0.0310660`, converging at the first midpoint. -/
def cfgW1 : Config := cfgH (310660/10000000)

/-- Fall height `0.0310666`, converging at the first midpoint. -/
def cfgW2 : Config := cfgH (310666/10000000)

/-- Passes validation although `cross_section_area = -1` (the validator
does not check the cross-section area). -/
def cfgA : Config :=
  { scenario_name := "Negative Area", material :=
      { name := "Bad Material", elastic_modulus := 1, yield_strength := 1,
        density := 1, cross_section_area := -1, strain_limit := 1/10 },
    geometry := geoW, impact := impW 1, analysis := anaW }

/-- Violates two constraints at once: `mass = 0` and `net_span = -1`. -/
def cfg8 : Config :=
  { scenario_name := "Invalid", material := matW,
    geometry := { geoW with net_span := -1 },
    impact := { mass := 0, fall_height := 3, impact_velocity := 0 },
    analysis := anaW }

/-- Same physics as `cfgM2` but different solver-facing analysis fields. -/
def cfgT2 : Config :=
  { cfgM2 with analysis :=
      { anaW with max_iterations := 50, convergence_tolerance := 1/1000 } }

/-! ## Properties of the bisection loop -/

/-- One unfolding step of the loop. -/
lemma bisectLoop_succ (f : ℝ → ℝ) (tol : ℝ) (n : ℕ) (l r : ℝ) :
    bisectLoop f tol (n + 1) l r =
      if |f ((l + r) / 2)| < tol then some (max 0 ((l + r) / 2))
      else if 0 < f ((l + r) / 2) then bisectLoop f tol n l ((l + r) / 2)
      else bisectLoop f tol n ((l + r) / 2) r := by
  simp only [bisectLoop]

/-- A successful bisection return is `max 0 mid` for a midpoint inside the
current bracket at which the energy residual met the tolerance. -/
lemma bisectLoop_eq_some {f : ℝ → ℝ} {tol : ℝ} :
    ∀ {n : ℕ} {l r d : ℝ}, 0 ≤ l → l ≤ r →
      bisectLoop f tol n l r = some d →
      ∃ m : ℝ, l ≤ m ∧ m ≤ r ∧ |f m| < tol ∧ d = max 0 m := by
  intro n
  induction n with
  | zero =>
    intro l r d _ _ h
    simp [bisectLoop] at h
  | succ n ih =>
    intro l r d h0 hlr h
    simp only [bisectLoop] at h
    have hlm : l ≤ (l + r) / 2 := by linarith
    have hmr : (l + r) / 2 ≤ r := by linarith
    by_cases hc : |f ((l + r) / 2)| < tol
    · rw [if_pos hc] at h
      exact ⟨(l + r) / 2, hlm, hmr, hc, (Option.some_injective _ h).symm⟩
    · rw [if_neg hc] at h
      by_cases hs : 0 < f ((l + r) / 2)
      · rw [if_pos hs] at h
        obtain ⟨m, h1, h2, h3, h4⟩ := ih h0 hlm h
        exact ⟨m, h1, h2.trans hmr, h3, h4⟩
      · rw [if_neg hs] at h
        obtain ⟨m, h1, h2, h3, h4⟩ := ih (h0.trans hlm) hmr h
        exact ⟨m, hlm.trans h1, h2, h3, h4⟩

/-- If the energy residual stays at or below `-tol` on the whole bracket,
the loop never meets the tolerance and burns all its fuel. -/
lemma bisectLoop_eq_none {f : ℝ → ℝ} {tol : ℝ} (htol : 0 < tol) :
    ∀ (n : ℕ) {l r : ℝ}, l ≤ r → (∀ x, l ≤ x → x ≤ r → f x ≤ -tol) →
      bisectLoop f tol n l r = none := by
  intro n
  induction n with
  | zero => intro l r _ _; rfl
  | succ n ih =>
    intro l r hlr hneg
    have hlm : l ≤ (l + r) / 2 := by linarith
    have hmr : (l + r) / 2 ≤ r := by linarith
    have hfm : f ((l + r) / 2) ≤ -tol := hneg _ hlm hmr
    have habs : ¬ |f ((l + r) / 2)| < tol := by
      have : tol ≤ -(f ((l + r) / 2)) := by linarith
      have := this.trans (neg_le_abs _)
      exact not_lt.mpr this
    have hpos : ¬ 0 < f ((l + r) / 2) := by
      apply not_lt.mpr; linarith
    simp only [bisectLoop]
    rw [if_neg habs, if_neg hpos]
    exact ih hmr fun x hx1 hx2 => hneg x (hlm.trans hx1) hx2

/-- Comparison of two bisection runs over the same bracket: if the second
energy residual is pointwise at most the first one, and both runs return
through the tolerance branch, the second returned value is at least the
first one. -/
lemma bisectLoop_le_bisectLoop {f1 f2 : ℝ → ℝ} {tol : ℝ} (htol : 0 < tol)
    (hf : ∀ x, f2 x ≤ f1 x) :
    ∀ {n : ℕ} {l r d1 d2 : ℝ}, 0 ≤ l → l ≤ r →
      bisectLoop f1 tol n l r = some d1 → bisectLoop f2 tol n l r = some d2 →
      d1 ≤ d2 := by
  intro n
  induction n with
  | zero =>
    intro l r d1 d2 _ _ h1 _
    simp [bisectLoop] at h1
  | succ n ih =>
    intro l r d1 d2 h0 hlr h1 h2
    simp only [bisectLoop] at h1 h2
    set m := (l + r) / 2 with hm
    have hlm : l ≤ m := by rw [hm]; linarith
    have hmr : m ≤ r := by rw [hm]; linarith
    have h0m : 0 ≤ m := h0.trans hlm
    by_cases c1 : |f1 m| < tol
    · rw [if_pos c1] at h1
      by_cases c2 : |f2 m| < tol
      · rw [if_pos c2] at h2
        rw [← Option.some_injective _ h1, ← Option.some_injective _ h2]
      · -- the second residual fell below the tolerance band: it goes right
        have hf2m : f2 m ≤ -tol := by
          have hlt : f2 m < tol := (hf m).trans_lt (lt_of_abs_lt c1)
          rcases le_or_lt 0 (f2 m) with hge | hneg
          · exact absurd (abs_of_nonneg hge ▸ not_lt.mp c2) (by intro hX; linarith)
          · have := not_lt.mp c2
            rw [abs_of_neg hneg] at this
            linarith
        rw [if_neg c2, if_neg (not_lt.mpr (by linarith : f2 m ≤ 0))] at h2
        obtain ⟨m2, hm2l, _, _, hd2⟩ := bisectLoop_eq_some h0m hmr h2
        rw [← Option.some_injective _ h1, hd2]
        exact max_le_max le_rfl hm2l
    · by_cases c2 : |f2 m| < tol
      · -- the first residual is above the band: it goes left
        have hf1m : tol ≤ f1 m := by
          have hgt : -tol < f1 m := by
            have := neg_lt_of_abs_lt c2
            have := hf m
            linarith
          rcases le_or_lt (f1 m) 0 with hle | hpos
          · exfalso
            have := not_lt.mp c1
            rw [abs_of_nonpos hle] at this
            linarith
          · have := not_lt.mp c1
            rw [abs_of_pos hpos] at this
            exact this
        rw [if_pos c2] at h2
        rw [if_neg c1, if_pos (by linarith : 0 < f1 m)] at h1
        obtain ⟨m1, _, hm1r, _, hd1⟩ := bisectLoop_eq_some h0 hlm h1
        rw [← Option.some_injective _ h2, hd1]
        exact max_le_max le_rfl hm1r
      · rw [if_neg c1] at h1
        rw [if_neg c2] at h2
        by_cases s1 : 0 < f1 m
        · rw [if_pos s1] at h1
          by_cases s2 : 0 < f2 m
          · rw [if_pos s2] at h2
            exact ih h0 hlm h1 h2
          · rw [if_neg s2] at h2
            obtain ⟨m1, _, hm1r, _, hd1⟩ := bisectLoop_eq_some h0 hlm h1
            obtain ⟨m2, hm2l, _, _, hd2⟩ := bisectLoop_eq_some h0m hmr h2
            rw [hd1, hd2]
            exact max_le_max le_rfl (hm1r.trans hm2l)
        · rw [if_neg s1] at h1
          have s2 : ¬ 0 < f2 m := by
            have := hf m
            have := not_lt.mp s1
            apply not_lt.mpr; linarith
          rw [if_neg s2] at h2
          exact ih h0m hmr h1 h2

/-! ## Validation, trigonometric values and unfolding helpers -/

/-- The validator accepts exactly the configurations whose six checked
fields are positive. -/
lemma validateConfig_eq_nil {c : Config} :
    validateConfig c = [] ↔
      0 < c.material.elastic_modulus ∧ 0 < c.material.yield_strength ∧
      0 < c.geometry.net_span ∧ 0 < c.geometry.num_strands ∧
      0 < c.impact.mass ∧ 0 < c.impact.fall_height := by
  simp only [validateConfig, List.append_eq_nil, ite_eq_right_iff,
    List.cons_ne_nil, imp_false, not_or, not_le]
  constructor
  · rintro ⟨⟨⟨⟨⟨⟨_, h1⟩, _, h2⟩, _, h3⟩, _, h4⟩, _, h5⟩, _, h6⟩
    exact ⟨h1, h2, h3, h4, h5, h6⟩
  · rintro ⟨h1, h2, h3, h4, h5, h6⟩
    exact ⟨⟨⟨⟨⟨⟨ne_of_gt h1, h1⟩, ne_of_gt h2, h2⟩, ne_of_gt h3, h3⟩,
      ne_of_gt h4, h4⟩, ne_of_gt h5, h5⟩, ne_of_gt h6, h6⟩

/-- For a positive span, the estimated deformation angle is the constant
`atan(0.2)`. -/
lemma theta_eq {c : Config} (hL : (c.geometry.net_span : ℝ) ≠ 0) :
    theta c = Real.arctan 0.2 := by
  unfold theta
  congr 1
  field_simp
  ring

lemma cos_sq_arctan : Real.cos (Real.arctan 0.2) ^ 2 = 25 / 26 := by
  rw [Real.cos_arctan, div_pow, one_pow,
    Real.sq_sqrt (by norm_num : (0:ℝ) ≤ 1 + (0.2:ℝ) ^ 2)]
  norm_num

lemma sin_arctan_eq : Real.sin (Real.arctan 0.2) = 0.2 / Real.sqrt 1.04 := by
  rw [Real.sin_arctan]
  norm_num

lemma sin_sq_arctan : Real.sin (Real.arctan 0.2) ^ 2 = 1 / 26 := by
  rw [sin_arctan_eq, div_pow, Real.sq_sqrt (by norm_num : (0:ℝ) ≤ (1.04:ℝ))]
  norm_num

lemma sin_arctan_nonneg : 0 ≤ Real.sin (Real.arctan 0.2) := by
  rw [sin_arctan_eq]
  positivity

lemma sqrt104_lb : (1.019803 : ℝ) < Real.sqrt 1.04 :=
  (Real.lt_sqrt (by norm_num)).mpr (by norm_num)

lemma sqrt104_ub : Real.sqrt 1.04 < 1.019804 :=
  (Real.sqrt_lt' (by norm_num)).mpr (by norm_num)

/-- Projection of the stored maximum deflection. -/
lemma result_max_deflection (c : Config) :
    (computeResult c).structural_response.max_deflection =
      calculateMaxDeflection (calculateStiffnessCoefficients c).k1
        (calculateStiffnessCoefficients c).k2
        (calculateStiffnessCoefficients c).k3 c := rfl

/-- Projection of the stored maximum stress. -/
lemma result_max_stress (c : Config) :
    (computeResult c).structural_response.max_stress =
      calculateMaxStress c (computeResult c).structural_response.max_deflection := rfl

/-- Projection of the stored strain. -/
lemma result_strain (c : Config) :
    (computeResult c).structural_response.strain =
      (Real.sqrt ((c.geometry.net_span : ℝ) ^ 2 +
          (computeResult c).structural_response.max_deflection ^ 2) -
        (c.geometry.net_span : ℝ)) / (c.geometry.net_span : ℝ) := rfl

open Classical in
/-- Projection of the stored safety factor. -/
lemma result_safety_factor (c : Config) :
    (computeResult c).structural_response.safety_factor =
      if 0 < (computeResult c).structural_response.max_stress then
        (((c.material.yield_strength : ℝ) /
            (computeResult c).structural_response.max_stress : ℝ) : EReal)
      else ⊤ := rfl

/-- Deflection when the bisection loop returns. -/
lemma calculateMaxDeflection_of_some {k1 k2 k3 : ℝ} {c : Config} {d : ℝ}
    (h : bisectLoop
        (energyEquation k1 k2 k3 (c.impact.mass : ℝ) (c.impact.fall_height : ℝ))
        1e-6 100 0 ((c.geometry.net_span : ℝ) * 0.5) = some d) :
    calculateMaxDeflection k1 k2 k3 c = d := by
  unfold calculateMaxDeflection
  rw [h]

/-- Deflection when the bisection loop exhausts its iterations. -/
lemma calculateMaxDeflection_of_none {k1 k2 k3 : ℝ} {c : Config}
    (h : bisectLoop
        (energyEquation k1 k2 k3 (c.impact.mass : ℝ) (c.impact.fall_height : ℝ))
        1e-6 100 0 ((c.geometry.net_span : ℝ) * 0.5) = none) :
    calculateMaxDeflection k1 k2 k3 c =
      min ((c.impact.mass : ℝ) * gravity * (c.impact.fall_height : ℝ) / k1)
        ((c.geometry.net_span : ℝ) * 0.5) := by
  unfold calculateMaxDeflection
  rw [h]

/-- Successful run of `analyze`. -/
lemma analyze_ok {a : Analyzer} (h : validateConfig a.config = []) :
    a.analyze = .ok (computeResult a.config,
      { config := a.config, results := some (computeResult a.config) }) := by
  cases a
  unfold Analyzer.analyze
  rw [if_pos h]

/-- Failing run of `analyze`. -/
lemma analyze_error {a : Analyzer} (h : validateConfig a.config ≠ []) :
    a.analyze = .error (validateConfig a.config) := by
  unfold Analyzer.analyze
  rw [if_neg h]

/-! ## Evaluation on the concrete test configurations -/

/-- Every `cfgH` configuration with a positive fall height is valid. -/
lemma valid_cfgH (q : ℚ) (hq : 0 < q) : validateConfig (cfgH q) = [] :=
  validateConfig_eq_nil.mpr (by norm_num [cfgH, matW, geoW, impW, hq])

lemma valid_cfgM1 : validateConfig cfgM1 = [] := valid_cfgH _ (by norm_num)

lemma valid_cfgM2 : validateConfig cfgM2 = [] := valid_cfgH _ (by norm_num)

lemma valid_cfgW1 : validateConfig cfgW1 = [] := valid_cfgH _ (by norm_num)

lemma valid_cfgW2 : validateConfig cfgW2 = [] := valid_cfgH _ (by norm_num)

/-- `cfgA` passes validation: none of the six checks involves the
cross-section area. -/
lemma valid_cfgA : validateConfig cfgA = [] :=
  validateConfig_eq_nil.mpr (by norm_num [cfgA, geoW, impW])

/-- `cfg8` fails validation. -/
lemma invalid_cfg8 : validateConfig cfg8 ≠ [] := by
  rw [Ne, validateConfig_eq_nil]
  norm_num [cfg8, matW, geoW, impW]

/-- Stiffness triple of the `cfgH` family: `k1 = cos²θ = 25/26`,
`k2 = sinθ·cos²θ = (5/26)/√1.04`, `k3 = sin²θ·cos²θ = 25/676`. -/
lemma ks_cfgH (q : ℚ) :
    calculateStiffnessCoefficients (cfgH q) =
      ⟨25 / 26, (5 / 26) / Real.sqrt 1.04, 25 / 676⟩ := by
  have ht : theta (cfgH q) = Real.arctan 0.2 := by
    apply theta_eq
    norm_num [cfgH, geoW]
  unfold calculateStiffnessCoefficients
  rw [ht]
  have hs : Real.sqrt 1.04 ≠ 0 := by positivity
  simp only [cfgH, geoW, matW, StiffnessCoefficients.mk.injEq]
  rw [cos_sq_arctan, sin_arctan_eq]
  refine ⟨by norm_num, ?_, ?_⟩
  · push_cast
    field_simp
    ring
  · rw [div_pow, Real.sq_sqrt (by norm_num : (0 : ℝ) ≤ (1.04 : ℝ))]
    push_cast
    norm_num

/-- Stiffness triple of `cfgA` (area `-1`): all three coefficients are the
negatives of the `cfgH` ones. -/
lemma ks_cfgA :
    calculateStiffnessCoefficients cfgA =
      ⟨-(25 / 26), -((5 / 26) / Real.sqrt 1.04), -(25 / 676)⟩ := by
  have ht : theta cfgA = Real.arctan 0.2 := by
    apply theta_eq
    norm_num [cfgA, geoW]
  unfold calculateStiffnessCoefficients
  rw [ht]
  have hs : Real.sqrt 1.04 ≠ 0 := by positivity
  simp only [cfgA, geoW, StiffnessCoefficients.mk.injEq]
  rw [cos_sq_arctan, sin_arctan_eq]
  refine ⟨by norm_num, ?_, ?_⟩
  · push_cast
    field_simp
    ring
  · rw [div_pow, Real.sq_sqrt (by norm_num : (0 : ℝ) ≤ (1.04 : ℝ))]
    push_cast
    norm_num

/-- On fall heights between `0.031066` and `0.0310666` the energy residual
of the `cfgH` family at the first midpoint `0.25` is within the `1e-6`
tolerance. -/
lemma energy_cfgH_quarter (q : ℚ) (hlo : (31066 / 1000000 : ℝ) ≤ (q : ℝ))
    (hhi : (q : ℝ) ≤ (310666 / 10000000 : ℝ)) :
    |energyEquation (25 / 26) ((5 / 26) / Real.sqrt 1.04) (25 / 676)
      (((cfgH q).impact.mass : ℝ)) (((cfgH q).impact.fall_height : ℝ)) 0.25| <
      1e-6 := by
  have hs1 := sqrt104_lb
  have hs2 := sqrt104_ub
  have hs0 : (0 : ℝ) < Real.sqrt 1.04 := by linarith
  have e1 : (5 / 26 : ℝ) / Real.sqrt 1.04 < (5 / 26) / 1.019803 :=
    div_lt_div_of_pos_left (by norm_num) (by norm_num) hs1
  have e2 : (5 / 26 : ℝ) / 1.019804 < (5 / 26) / Real.sqrt 1.04 :=
    div_lt_div_of_pos_left (by norm_num) hs0 hs2
  unfold energyEquation gravity
  simp only [cfgH, impW]
  push_cast
  rw [abs_lt]
  constructor <;> nlinarith [e1, e2, hlo, hhi]

/-- For fall height `0.2` the energy residual of the `cfgH` family stays
below `-1e-6` on the whole bracket `[0, 0.5]`: the impact energy exceeds
what the half-span deflection can store. -/
lemma energy_cfgM2_neg (x : ℝ) (hx0 : 0 ≤ x) (hx5 : x ≤ 0.5) :
    energyEquation (25 / 26) ((5 / 26) / Real.sqrt 1.04) (25 / 676)
      (((cfgH (1/5)).impact.mass : ℝ)) (((cfgH (1/5)).impact.fall_height : ℝ)) x ≤
      -(1e-6) := by
  have hs1 := sqrt104_lb
  have hs0 : (0 : ℝ) < Real.sqrt 1.04 := by linarith
  have hX0 : (0 : ℝ) < (5 / 26) / Real.sqrt 1.04 := by positivity
  have hX : (5 / 26 : ℝ) / Real.sqrt 1.04 ≤ 5 / 26 :=
    div_le_self (by norm_num) (by linarith)
  have h2 : x ^ 2 ≤ (0.5 : ℝ) ^ 2 := pow_le_pow_left₀ hx0 hx5 2
  have h3 : x ^ 3 ≤ (0.5 : ℝ) ^ 3 := pow_le_pow_left₀ hx0 hx5 3
  have h4 : x ^ 4 ≤ (0.5 : ℝ) ^ 4 := pow_le_pow_left₀ hx0 hx5 4
  have h3n : (0 : ℝ) ≤ x ^ 3 := pow_nonneg hx0 3
  have hcube : ((5 / 26 : ℝ) / Real.sqrt 1.04) * x ^ 3 ≤ (5 / 26) * (0.5 : ℝ) ^ 3 :=
    mul_le_mul hX h3 h3n (by norm_num)
  unfold energyEquation gravity
  simp only [cfgH, impW]
  push_cast
  nlinarith [hcube, h2, h4]

/-- For `cfgA` (negative cross-section area) all stiffness terms are
non-positive so the energy residual stays below `-1e-6` everywhere on the
bracket. -/
lemma energy_cfgA_neg (x : ℝ) (hx0 : 0 ≤ x) :
    energyEquation (-(25 / 26)) (-((5 / 26) / Real.sqrt 1.04)) (-(25 / 676))
      ((cfgA.impact.mass : ℝ)) ((cfgA.impact.fall_height : ℝ)) x ≤ -(1e-6) := by
  have hs1 := sqrt104_lb
  have hX0 : (0 : ℝ) < (5 / 26) / Real.sqrt 1.04 := by positivity
  have h2 : (0 : ℝ) ≤ x ^ 2 := sq_nonneg x
  have h3 : (0 : ℝ) ≤ x ^ 3 := pow_nonneg hx0 3
  have h4 : (0 : ℝ) ≤ x ^ 4 := pow_nonneg hx0 4
  have hcube : (0 : ℝ) ≤ ((5 / 26 : ℝ) / Real.sqrt 1.04) * x ^ 3 :=
    mul_nonneg hX0.le h3
  unfold energyEquation gravity
  simp only [cfgA, impW]
  push_cast
  nlinarith [hcube, h2, h4]

/-- If the residual already meets the tolerance at the first midpoint
`0.25` of the bracket `[0, 0.5]`, the loop returns `max 0 0.25 = 1/4`
immediately. -/
lemma bisectLoop_first_hit {f : ℝ → ℝ} (h : |f 0.25| < 1e-6) :
    bisectLoop f 1e-6 100 0 0.5 = some (1 / 4) := by
  rw [show (100 : ℕ) = 99 + 1 from rfl, bisectLoop_succ]
  rw [show ((0 : ℝ) + 0.5) / 2 = 0.25 from by norm_num]
  rw [if_pos h, max_eq_right (by norm_num : (0 : ℝ) ≤ 0.25)]
  norm_num

/-- Deflection of a `cfgH` configuration whose first midpoint already
meets the tolerance. -/
lemma maxDeflection_cfgH_first_hit (q : ℚ)
    (h : |energyEquation (25 / 26) ((5 / 26) / Real.sqrt 1.04) (25 / 676)
        (((cfgH q).impact.mass : ℝ)) (((cfgH q).impact.fall_height : ℝ)) 0.25| <
      1e-6) :
    (computeResult (cfgH q)).structural_response.max_deflection = 1 / 4 := by
  rw [result_max_deflection, ks_cfgH]
  show calculateMaxDeflection (25 / 26) ((5 / 26) / Real.sqrt 1.04) (25 / 676)
    (cfgH q) = 1 / 4
  apply calculateMaxDeflection_of_some
  rw [show (((cfgH q).geometry.net_span : ℝ) * 0.5) = 0.5 from by
    norm_num [cfgH, geoW]]
  exact bisectLoop_first_hit h

/-- The bisection run of a `cfgH` configuration exhausts all 100
iterations when the residual stays below `-1e-6` on the bracket. -/
lemma bisect_cfgH_none (q : ℚ)
    (h : ∀ x : ℝ, 0 ≤ x → x ≤ 0.5 →
      energyEquation (25 / 26) ((5 / 26) / Real.sqrt 1.04) (25 / 676)
        (((cfgH q).impact.mass : ℝ)) (((cfgH q).impact.fall_height : ℝ)) x ≤
        -(1e-6)) :
    bisectLoop (energyEquation (25 / 26) ((5 / 26) / Real.sqrt 1.04) (25 / 676)
        (((cfgH q).impact.mass : ℝ)) (((cfgH q).impact.fall_height : ℝ)))
      1e-6 100 0 (((cfgH q).geometry.net_span : ℝ) * 0.5) = none := by
  rw [show (((cfgH q).geometry.net_span : ℝ) * 0.5) = 0.5 from by
    norm_num [cfgH, geoW]]
  exact bisectLoop_eq_none (by norm_num) 100 (by norm_num) h

/-- Deflection of a `cfgH` configuration whose run exhausts its
iterations: the linear fallback `min(m·g·h/k1, 0.5) = min(q·26/25, 0.5)`. -/
lemma maxDeflection_cfgH_fallback (q : ℚ)
    (h : ∀ x : ℝ, 0 ≤ x → x ≤ 0.5 →
      energyEquation (25 / 26) ((5 / 26) / Real.sqrt 1.04) (25 / 676)
        (((cfgH q).impact.mass : ℝ)) (((cfgH q).impact.fall_height : ℝ)) x ≤
        -(1e-6)) :
    (computeResult (cfgH q)).structural_response.max_deflection =
      min ((q : ℝ) * (26 / 25)) 0.5 := by
  rw [result_max_deflection, ks_cfgH]
  show calculateMaxDeflection (25 / 26) ((5 / 26) / Real.sqrt 1.04) (25 / 676)
    (cfgH q) = min ((q : ℝ) * (26 / 25)) 0.5
  rw [calculateMaxDeflection_of_none (bisect_cfgH_none q h)]
  unfold gravity
  simp only [cfgH, impW, geoW]
  push_cast
  congr 1
  · ring
  · norm_num

/-! ## General structure of the returned deflection, stress and strain -/

/-- The returned deflection comes either from the tolerance branch of the
bisection (clamped midpoint of the bracket) or, after the loop exhausts
its 100 iterations, from the linear fallback. -/
lemma maxDeflection_cases (c : Config) (hv : validateConfig c = []) :
    (∃ m : ℝ, 0 ≤ m ∧ m ≤ (c.geometry.net_span : ℝ) * 0.5 ∧
        |energyEquation (calculateStiffnessCoefficients c).k1
            (calculateStiffnessCoefficients c).k2
            (calculateStiffnessCoefficients c).k3
            (c.impact.mass : ℝ) (c.impact.fall_height : ℝ) m| < 1e-6 ∧
        (computeResult c).structural_response.max_deflection = max 0 m) ∨
    (bisectLoop (energyEquation (calculateStiffnessCoefficients c).k1
          (calculateStiffnessCoefficients c).k2
          (calculateStiffnessCoefficients c).k3
          (c.impact.mass : ℝ) (c.impact.fall_height : ℝ)) 1e-6 100 0
        ((c.geometry.net_span : ℝ) * 0.5) = none ∧
      (computeResult c).structural_response.max_deflection =
        min ((c.impact.mass : ℝ) * gravity * (c.impact.fall_height : ℝ) /
            (calculateStiffnessCoefficients c).k1)
          ((c.geometry.net_span : ℝ) * 0.5)) := by
  have hL : (0 : ℝ) < (c.geometry.net_span : ℝ) := by
    exact_mod_cast (validateConfig_eq_nil.mp hv).2.2.1
  have hr : (0 : ℝ) ≤ (c.geometry.net_span : ℝ) * 0.5 := by linarith
  rcases hb : bisectLoop (energyEquation (calculateStiffnessCoefficients c).k1
      (calculateStiffnessCoefficients c).k2 (calculateStiffnessCoefficients c).k3
      (c.impact.mass : ℝ) (c.impact.fall_height : ℝ)) 1e-6 100 0
      ((c.geometry.net_span : ℝ) * 0.5) with _ | d
  · right
    exact ⟨rfl, by rw [result_max_deflection, calculateMaxDeflection_of_none hb]⟩
  · left
    obtain ⟨m, h1, h2, h3, h4⟩ := bisectLoop_eq_some le_rfl hr hb
    exact ⟨m, h1, h2, h3, by
      rw [result_max_deflection, calculateMaxDeflection_of_some hb, h4]⟩

/-- The first stiffness coefficient is positive as soon as validation
passed and the (unvalidated) cross-section area is positive. -/
lemma k1_pos (c : Config) (hv : validateConfig c = [])
    (hA : 0 < c.material.cross_section_area) :
    0 < (calculateStiffnessCoefficients c).k1 := by
  obtain ⟨hE, _, hL, hn, _, _⟩ := validateConfig_eq_nil.mp hv
  have hE' : (0 : ℝ) < (c.material.elastic_modulus : ℝ) := by exact_mod_cast hE
  have hL' : (0 : ℝ) < (c.geometry.net_span : ℝ) := by exact_mod_cast hL
  have hn' : (0 : ℝ) < (c.geometry.num_strands : ℝ) := by exact_mod_cast hn
  have hA' : (0 : ℝ) < (c.material.cross_section_area : ℝ) := by exact_mod_cast hA
  have hcos : 0 < Real.cos (theta c) := Real.cos_arctan_pos _
  exact mul_pos (div_pos (mul_pos (mul_pos hn' hE') hA') hL') (pow_pos hcos 2)

/-- The reported strain is non-negative for every validated
configuration, whatever the deflection turned out to be. -/
lemma strain_nonneg (c : Config) (hv : validateConfig c = []) :
    0 ≤ (computeResult c).structural_response.strain := by
  have hL : (0 : ℝ) < (c.geometry.net_span : ℝ) := by
    exact_mod_cast (validateConfig_eq_nil.mp hv).2.2.1
  rw [result_strain]
  apply div_nonneg _ hL.le
  have h1 : (c.geometry.net_span : ℝ) =
      Real.sqrt ((c.geometry.net_span : ℝ) ^ 2) := (Real.sqrt_sq hL.le).symm
  have h2 : Real.sqrt ((c.geometry.net_span : ℝ) ^ 2) ≤
      Real.sqrt ((c.geometry.net_span : ℝ) ^ 2 +
        (computeResult c).structural_response.max_deflection ^ 2) :=
    Real.sqrt_le_sqrt (le_add_of_nonneg_right (sq_nonneg _))
  rw [← h1] at h2
  linarith

/-- The reported peak stress is the elastic modulus times the reported
strain: both `analyze` and `_calculateMaxStress` evaluate the same
elongation formula at the same deflection. -/
lemma stress_eq_modulus_mul_strain (c : Config) :
    (computeResult c).structural_response.max_stress =
      (c.material.elastic_modulus : ℝ) *
        (computeResult c).structural_response.strain := rfl

/-- The reported peak stress is non-negative for validated
configurations. -/
lemma stress_nonneg (c : Config) (hv : validateConfig c = []) :
    0 ≤ (computeResult c).structural_response.max_stress := by
  have hE : (0 : ℝ) < (c.material.elastic_modulus : ℝ) := by
    exact_mod_cast (validateConfig_eq_nil.mp hv).1
  rw [stress_eq_modulus_mul_strain]
  exact mul_nonneg hE.le (strain_nonneg c hv)

/-! ## Concrete deflection values -/

/-- `cfgM1` converges at the very first midpoint: `δ_max = 1/4`. -/
lemma maxDeflection_cfgM1 :
    (computeResult cfgM1).structural_response.max_deflection = 1 / 4 := by
  show (computeResult (cfgH (3106634 / 100000000))).structural_response.max_deflection
    = 1 / 4
  apply maxDeflection_cfgH_first_hit
  apply energy_cfgH_quarter <;> push_cast <;> norm_num

/-- `cfgW1` converges at the very first midpoint: `δ_max = 1/4`. -/
lemma maxDeflection_cfgW1 :
    (computeResult cfgW1).structural_response.max_deflection = 1 / 4 := by
  show (computeResult (cfgH (310660 / 10000000))).structural_response.max_deflection
    = 1 / 4
  apply maxDeflection_cfgH_first_hit
  apply energy_cfgH_quarter <;> push_cast <;> norm_num

/-- `cfgW2` converges at the very first midpoint: `δ_max = 1/4`. -/
lemma maxDeflection_cfgW2 :
    (computeResult cfgW2).structural_response.max_deflection = 1 / 4 := by
  show (computeResult (cfgH (310666 / 10000000))).structural_response.max_deflection
    = 1 / 4
  apply maxDeflection_cfgH_first_hit
  apply energy_cfgH_quarter <;> push_cast <;> norm_num

/-- The bisection run of `cfgM2` exhausts its iterations, stated over the
coefficients the engine computes for `cfgM2`. -/
lemma bisect_cfgM2_none :
    bisectLoop (energyEquation (calculateStiffnessCoefficients cfgM2).k1
        (calculateStiffnessCoefficients cfgM2).k2
        (calculateStiffnessCoefficients cfgM2).k3
        (cfgM2.impact.mass : ℝ) (cfgM2.impact.fall_height : ℝ)) 1e-6 100 0
      ((cfgM2.geometry.net_span : ℝ) * 0.5) = none := by
  show bisectLoop (energyEquation (calculateStiffnessCoefficients (cfgH (1/5))).k1
      (calculateStiffnessCoefficients (cfgH (1/5))).k2
      (calculateStiffnessCoefficients (cfgH (1/5))).k3
      ((cfgH (1/5)).impact.mass : ℝ) ((cfgH (1/5)).impact.fall_height : ℝ)) 1e-6 100 0
    (((cfgH (1/5)).geometry.net_span : ℝ) * 0.5) = none
  rw [ks_cfgH]
  exact bisect_cfgH_none (1/5) energy_cfgM2_neg

/-- `cfgM2` returns via the linear fallback: `δ_max = 26/125 = 0.208`. -/
lemma maxDeflection_cfgM2 :
    (computeResult cfgM2).structural_response.max_deflection = 26 / 125 := by
  show (computeResult (cfgH (1/5))).structural_response.max_deflection = 26 / 125
  rw [maxDeflection_cfgH_fallback (1/5) energy_cfgM2_neg]
  rw [min_eq_left (by push_cast; norm_num)]
  push_cast
  norm_num

/-- `cfgA` (negative cross-section area) returns a negative deflection
through the fallback. -/
lemma maxDeflection_cfgA_neg :
    (computeResult cfgA).structural_response.max_deflection < 0 := by
  rw [result_max_deflection, ks_cfgA]
  show calculateMaxDeflection (-(25 / 26)) (-((5 / 26) / Real.sqrt 1.04))
    (-(25 / 676)) cfgA < 0
  have hb : bisectLoop (energyEquation (-(25 / 26)) (-((5 / 26) / Real.sqrt 1.04))
      (-(25 / 676)) (cfgA.impact.mass : ℝ) (cfgA.impact.fall_height : ℝ)) 1e-6 100 0
      ((cfgA.geometry.net_span : ℝ) * 0.5) = none := by
    rw [show ((cfgA.geometry.net_span : ℝ) * 0.5) = 0.5 from by
      norm_num [cfgA, geoW]]
    exact bisectLoop_eq_none (by norm_num) 100 (by norm_num)
      fun x hx0 _ => energy_cfgA_neg x hx0
  rw [calculateMaxDeflection_of_none hb]
  have hneg : (cfgA.impact.mass : ℝ) * gravity * (cfgA.impact.fall_height : ℝ) /
      (-(25 / 26)) < 0 := by
    unfold gravity
    simp only [cfgA, impW]
    push_cast
    norm_num
  exact lt_of_le_of_lt (min_le_left _ _) hneg

/-! ## Claim theorems -/

/-- Claim C6: for every configuration that passes validation, the strain
reported by `analyze` equals `(sqrt(net_span² + δ_max²) − net_span) /
net_span`, is non-negative, and the reported `max_stress` equals
`elastic_modulus · strain` exactly. -/
theorem strain_stress_relation (c : Config) (hv : validateConfig c = []) :
    (computeResult c).structural_response.strain =
      (Real.sqrt ((c.geometry.net_span : ℝ) ^ 2 +
          (computeResult c).structural_response.max_deflection ^ 2) -
        (c.geometry.net_span : ℝ)) / (c.geometry.net_span : ℝ) ∧
    0 ≤ (computeResult c).structural_response.strain ∧
    (computeResult c).structural_response.max_stress =
      (c.material.elastic_modulus : ℝ) *
        (computeResult c).structural_response.strain :=
  ⟨result_strain c, strain_nonneg c hv, stress_eq_modulus_mul_strain c⟩

/-- Witness for C6 at the concrete configuration `cfgM1`. -/
theorem strain_stress_relation_witness :
    validateConfig cfgM1 = [] ∧
    ((computeResult cfgM1).structural_response.strain =
      (Real.sqrt ((cfgM1.geometry.net_span : ℝ) ^ 2 +
          (computeResult cfgM1).structural_response.max_deflection ^ 2) -
        (cfgM1.geometry.net_span : ℝ)) / (cfgM1.geometry.net_span : ℝ) ∧
    0 ≤ (computeResult cfgM1).structural_response.strain ∧
    (computeResult cfgM1).structural_response.max_stress =
      (cfgM1.material.elastic_modulus : ℝ) *
        (computeResult cfgM1).structural_response.strain) :=
  ⟨valid_cfgM1, strain_stress_relation cfgM1 valid_cfgM1⟩

/-- Claim C7: for every configuration that passes validation, the safety
factor is `yield_strength / max_stress` whenever the stress is nonzero,
it is the unbounded sentinel `⊤` iff the stress is exactly zero, and the
zero-stress case is not an error: `analyze` still succeeds. -/
theorem safety_factor_spec (c : Config) (hv : validateConfig c = []) :
    ((computeResult c).structural_response.max_stress ≠ 0 →
      (computeResult c).structural_response.safety_factor =
        (((c.material.yield_strength : ℝ) /
            (computeResult c).structural_response.max_stress : ℝ) : EReal)) ∧
    ((computeResult c).structural_response.safety_factor = ⊤ ↔
      (computeResult c).structural_response.max_stress = 0) ∧
    Analyzer.analyze ⟨c, none⟩ =
      .ok (computeResult c, ⟨c, some (computeResult c)⟩) := by
  have h0 := stress_nonneg c hv
  refine ⟨?_, ?_, analyze_ok hv⟩
  · intro hne
    have hpos : 0 < (computeResult c).structural_response.max_stress :=
      lt_of_le_of_ne h0 (Ne.symm hne)
    rw [result_safety_factor, if_pos hpos]
  · rw [result_safety_factor]
    by_cases hpos : 0 < (computeResult c).structural_response.max_stress
    · rw [if_pos hpos]
      constructor
      · exact fun h => absurd h (EReal.coe_ne_top _)
      · exact fun h => absurd hpos (by rw [h]; exact lt_irrefl 0)
    · rw [if_neg hpos]
      have hz : (computeResult c).structural_response.max_stress = 0 :=
        le_antisymm (not_lt.mp hpos) h0
      simp [hz]

/-- Witness for C7 at the concrete configuration `cfgM1`. -/
theorem safety_factor_spec_witness :
    validateConfig cfgM1 = [] ∧
    (((computeResult cfgM1).structural_response.max_stress ≠ 0 →
      (computeResult cfgM1).structural_response.safety_factor =
        (((cfgM1.material.yield_strength : ℝ) /
            (computeResult cfgM1).structural_response.max_stress : ℝ) : EReal)) ∧
    ((computeResult cfgM1).structural_response.safety_factor = ⊤ ↔
      (computeResult cfgM1).structural_response.max_stress = 0) ∧
    Analyzer.analyze ⟨cfgM1, none⟩ =
      .ok (computeResult cfgM1, ⟨cfgM1, some (computeResult cfgM1)⟩)) :=
  ⟨valid_cfgM1, safety_factor_spec cfgM1 valid_cfgM1⟩

/-- Claim C8: for every configuration violating one or more checked
positivity constraints, `analyze` refuses to run and the error carries
the message of every violated constraint, not just the first. -/
theorem validation_reports_all_violations (c : Config)
    (h : validateConfig c ≠ []) :
    (∀ res : Option AnalysisResult,
      Analyzer.analyze ⟨c, res⟩ = .error (validateConfig c)) ∧
    (c.material.elastic_modulus ≤ 0 →
      "Material elastic modulus must be positive" ∈ validateConfig c) ∧
    (c.material.yield_strength ≤ 0 →
      "Material yield strength must be positive" ∈ validateConfig c) ∧
    (c.geometry.net_span ≤ 0 →
      "Net span must be positive" ∈ validateConfig c) ∧
    (c.geometry.num_strands ≤ 0 →
      "Number of strands must be positive" ∈ validateConfig c) ∧
    (c.impact.mass ≤ 0 →
      "Impact mass must be positive" ∈ validateConfig c) ∧
    (c.impact.fall_height ≤ 0 →
      "Fall height must be positive" ∈ validateConfig c) := by
  refine ⟨fun res => analyze_error h, ?_, ?_, ?_, ?_, ?_, ?_⟩ <;> intro hx <;>
    simp [validateConfig, hx]

/-- Witness for C8: `cfg8` has `mass = 0` and `net_span = -1`; both
messages appear in the reported list. -/
theorem validation_reports_all_violations_witness :
    validateConfig cfg8 ≠ [] ∧
    ((∀ res : Option AnalysisResult,
      Analyzer.analyze ⟨cfg8, res⟩ = .error (validateConfig cfg8)) ∧
    (cfg8.material.elastic_modulus ≤ 0 →
      "Material elastic modulus must be positive" ∈ validateConfig cfg8) ∧
    (cfg8.material.yield_strength ≤ 0 →
      "Material yield strength must be positive" ∈ validateConfig cfg8) ∧
    (cfg8.geometry.net_span ≤ 0 →
      "Net span must be positive" ∈ validateConfig cfg8) ∧
    (cfg8.geometry.num_strands ≤ 0 →
      "Number of strands must be positive" ∈ validateConfig cfg8) ∧
    (cfg8.impact.mass ≤ 0 →
      "Impact mass must be positive" ∈ validateConfig cfg8) ∧
    (cfg8.impact.fall_height ≤ 0 →
      "Fall height must be positive" ∈ validateConfig cfg8)) :=
  ⟨invalid_cfg8, validation_reports_all_violations cfg8 invalid_cfg8⟩

/-- Claim C9: `analyze` is deterministic; two successive invocations on an
unchanged configuration succeed and return identical structural
responses (deflection, stress, safety factor, strain) and design
checks. -/
theorem analyze_deterministic (a : Analyzer)
    (hv : validateConfig a.config = []) :
    ∃ (r1 : AnalysisResult) (a1 : Analyzer) (r2 : AnalysisResult) (a2 : Analyzer),
      a.analyze = .ok (r1, a1) ∧ a1.analyze = .ok (r2, a2) ∧
      r1.structural_response = r2.structural_response ∧
      r1.design_checks = r2.design_checks :=
  ⟨computeResult a.config, ⟨a.config, some (computeResult a.config)⟩,
    computeResult a.config, ⟨a.config, some (computeResult a.config)⟩,
    analyze_ok hv, analyze_ok hv, rfl, rfl⟩

/-- Witness for C9 at the concrete configuration `cfgM2`. -/
theorem analyze_deterministic_witness :
    validateConfig (Analyzer.mk cfgM2 none).config = [] ∧
    (∃ (r1 : AnalysisResult) (a1 : Analyzer) (r2 : AnalysisResult) (a2 : Analyzer),
      (Analyzer.mk cfgM2 none).analyze = .ok (r1, a1) ∧
      a1.analyze = .ok (r2, a2) ∧
      r1.structural_response = r2.structural_response ∧
      r1.design_checks = r2.design_checks) :=
  ⟨valid_cfgM2, analyze_deterministic ⟨cfgM2, none⟩ valid_cfgM2⟩

/-- Claim C10: two configurations agreeing on material, geometry and
impact produce identical structural responses and design checks; in
particular `analysis.max_iterations` and `analysis.convergence_tolerance`
have no effect, since the solver hardcodes `1e-6` and `100`. -/
theorem analysis_params_no_effect (c1 c2 : Config)
    (hm : c1.material = c2.material) (hg : c1.geometry = c2.geometry)
    (hi : c1.impact = c2.impact) :
    (computeResult c1).structural_response =
      (computeResult c2).structural_response ∧
    (computeResult c1).design_checks = (computeResult c2).design_checks := by
  unfold computeResult calculateMaxDeflection calculateStiffnessCoefficients
    calculateMaxStress theta
  rw [hm, hg, hi]
  exact ⟨rfl, rfl⟩

/-- Witness for C10: `cfgT2` differs from `cfgM2` only in
`max_iterations` and `convergence_tolerance`. -/
theorem analysis_params_no_effect_witness :
    (cfgM2.material = cfgT2.material ∧ cfgM2.geometry = cfgT2.geometry ∧
      cfgM2.impact = cfgT2.impact) ∧
    ((computeResult cfgM2).structural_response =
      (computeResult cfgT2).structural_response ∧
    (computeResult cfgM2).design_checks = (computeResult cfgT2).design_checks) :=
  ⟨⟨rfl, rfl, rfl⟩, analysis_params_no_effect cfgM2 cfgT2 rfl rfl rfl⟩

/-- Claim C1 (amended): for every configuration that passes validation
and whose `cross_section_area` is positive (validation does not check
it), the returned deflection satisfies `0 ≤ δ_max ≤ 0.5·net_span` on both
the bisection and the fallback path. -/
theorem maxDeflection_bounds_of_pos_area (c : Config)
    (hv : validateConfig c = []) (hA : 0 < c.material.cross_section_area) :
    0 ≤ (computeResult c).structural_response.max_deflection ∧
    (computeResult c).structural_response.max_deflection ≤
      0.5 * (c.geometry.net_span : ℝ) := by
  obtain ⟨_, _, hL, _, hm, hh⟩ := validateConfig_eq_nil.mp hv
  have hL' : (0 : ℝ) < (c.geometry.net_span : ℝ) := by exact_mod_cast hL
  have hm' : (0 : ℝ) ≤ (c.impact.mass : ℝ) := by
    have : (0 : ℝ) < (c.impact.mass : ℝ) := by exact_mod_cast hm
    linarith
  have hh' : (0 : ℝ) ≤ (c.impact.fall_height : ℝ) := by
    have : (0 : ℝ) < (c.impact.fall_height : ℝ) := by exact_mod_cast hh
    linarith
  have hg0 : (0 : ℝ) ≤ gravity := by unfold gravity; norm_num
  have hr0 : (0 : ℝ) ≤ (c.geometry.net_span : ℝ) * 0.5 := by linarith
  rcases maxDeflection_cases c hv with ⟨m, h0m, hmr, _, hd⟩ | ⟨_, hd⟩
  · rw [hd]
    refine ⟨le_max_left 0 m, ?_⟩
    have := max_le hr0 hmr
    linarith
  · rw [hd]
    constructor
    · apply le_min _ hr0
      exact div_nonneg (mul_nonneg (mul_nonneg hm' hg0) hh')
        (k1_pos c hv hA).le
    · have := min_le_right
        ((c.impact.mass : ℝ) * gravity * (c.impact.fall_height : ℝ) /
          (calculateStiffnessCoefficients c).k1)
        ((c.geometry.net_span : ℝ) * 0.5)
      linarith

/-- Witness for C1 at the concrete configuration `cfgM1`. -/
theorem maxDeflection_bounds_witness :
    (validateConfig cfgM1 = [] ∧ 0 < cfgM1.material.cross_section_area) ∧
    (0 ≤ (computeResult cfgM1).structural_response.max_deflection ∧
    (computeResult cfgM1).structural_response.max_deflection ≤
      0.5 * (cfgM1.geometry.net_span : ℝ)) :=
  ⟨⟨valid_cfgM1, by norm_num [cfgM1, cfgH, matW]⟩,
    maxDeflection_bounds_of_pos_area cfgM1 valid_cfgM1
      (by norm_num [cfgM1, cfgH, matW])⟩

/-- Counterexample to C1 as stated: `cfgA` passes validation (its
cross-section area `-1` is never checked) yet `analyze` returns a
negative maximum deflection through the fallback. -/
theorem maxDeflection_neg_counterexample :
    validateConfig cfgA = [] ∧
    (computeResult cfgA).structural_response.max_deflection < 0 :=
  ⟨valid_cfgA, maxDeflection_cfgA_neg⟩

/-- Claim C2 (amended): for every configuration that passes validation,
either the energy balance holds at the returned deflection within the
hardcoded tolerance `1e-6`, or the returned deflection is the linear
fallback `min(m·g·h/k1, 0.5·net_span)` (the result object carries no
nonconvergence flag). -/
theorem energy_balance_or_fallback (c : Config)
    (hv : validateConfig c = []) :
    |energyEquation (calculateStiffnessCoefficients c).k1
        (calculateStiffnessCoefficients c).k2
        (calculateStiffnessCoefficients c).k3
        (c.impact.mass : ℝ) (c.impact.fall_height : ℝ)
        (computeResult c).structural_response.max_deflection| < 1e-6 ∨
    (computeResult c).structural_response.max_deflection =
      min ((c.impact.mass : ℝ) * gravity * (c.impact.fall_height : ℝ) /
          (calculateStiffnessCoefficients c).k1)
        ((c.geometry.net_span : ℝ) * 0.5) := by
  rcases maxDeflection_cases c hv with ⟨m, h0m, _, habs, hd⟩ | ⟨_, hd⟩
  · left
    rw [hd, max_eq_right h0m]
    exact habs
  · right
    exact hd

/-- Witness for C2 at the concrete configuration `cfgM1`. -/
theorem energy_balance_or_fallback_witness :
    validateConfig cfgM1 = [] ∧
    (|energyEquation (calculateStiffnessCoefficients cfgM1).k1
        (calculateStiffnessCoefficients cfgM1).k2
        (calculateStiffnessCoefficients cfgM1).k3
        (cfgM1.impact.mass : ℝ) (cfgM1.impact.fall_height : ℝ)
        (computeResult cfgM1).structural_response.max_deflection| < 1e-6 ∨
    (computeResult cfgM1).structural_response.max_deflection =
      min ((cfgM1.impact.mass : ℝ) * gravity * (cfgM1.impact.fall_height : ℝ) /
          (calculateStiffnessCoefficients cfgM1).k1)
        ((cfgM1.geometry.net_span : ℝ) * 0.5)) :=
  ⟨valid_cfgM1, energy_balance_or_fallback cfgM1 valid_cfgM1⟩

/-- Counterexample to C2 as stated: `cfgM2` passes validation, its run
exhausts the iteration budget and returns the fallback, and the energy
balance fails at the returned deflection by far more than the tolerance
(and no nonconvergence flag exists in the result object). -/
theorem energy_balance_counterexample :
    validateConfig cfgM2 = [] ∧
    ¬ |energyEquation (calculateStiffnessCoefficients cfgM2).k1
        (calculateStiffnessCoefficients cfgM2).k2
        (calculateStiffnessCoefficients cfgM2).k3
        (cfgM2.impact.mass : ℝ) (cfgM2.impact.fall_height : ℝ)
        (computeResult cfgM2).structural_response.max_deflection| < 1e-6 := by
  refine ⟨valid_cfgM2, ?_⟩
  rw [maxDeflection_cfgM2]
  show ¬ |energyEquation (calculateStiffnessCoefficients (cfgH (1/5))).k1
      (calculateStiffnessCoefficients (cfgH (1/5))).k2
      (calculateStiffnessCoefficients (cfgH (1/5))).k3
      ((cfgH (1/5)).impact.mass : ℝ) ((cfgH (1/5)).impact.fall_height : ℝ)
      (26 / 125)| < 1e-6
  rw [ks_cfgH]
  show ¬ |energyEquation (25 / 26) ((5 / 26) / Real.sqrt 1.04) (25 / 676)
      ((cfgH (1/5)).impact.mass : ℝ) ((cfgH (1/5)).impact.fall_height : ℝ)
      (26 / 125)| < 1e-6
  intro habs
  have hn := energy_cfgM2_neg (26 / 125) (by norm_num) (by norm_num)
  have h1 := (abs_lt.mp habs).1
  linarith

/-- Claim C3 (amended): the solver either returns `max(0, mid)` for a
bracket midpoint meeting the tolerance, or — exactly when the loop has
exhausted its 100 iterations — the linear fallback
`min(m·g·h/k1, 0.5·net_span)`; there is no separate best-midpoint
return path. -/
theorem solver_return_paths (c : Config) (hv : validateConfig c = []) :
    (∃ m : ℝ, 0 ≤ m ∧ m ≤ (c.geometry.net_span : ℝ) * 0.5 ∧
        |energyEquation (calculateStiffnessCoefficients c).k1
            (calculateStiffnessCoefficients c).k2
            (calculateStiffnessCoefficients c).k3
            (c.impact.mass : ℝ) (c.impact.fall_height : ℝ) m| < 1e-6 ∧
        (computeResult c).structural_response.max_deflection = max 0 m) ∨
    (bisectLoop (energyEquation (calculateStiffnessCoefficients c).k1
          (calculateStiffnessCoefficients c).k2
          (calculateStiffnessCoefficients c).k3
          (c.impact.mass : ℝ) (c.impact.fall_height : ℝ)) 1e-6 100 0
        ((c.geometry.net_span : ℝ) * 0.5) = none ∧
      (computeResult c).structural_response.max_deflection =
        min ((c.impact.mass : ℝ) * gravity * (c.impact.fall_height : ℝ) /
            (calculateStiffnessCoefficients c).k1)
          ((c.geometry.net_span : ℝ) * 0.5)) :=
  maxDeflection_cases c hv

/-- Witness for C3 at the concrete configuration `cfgM2`. -/
theorem solver_return_paths_witness :
    validateConfig cfgM2 = [] ∧
    ((∃ m : ℝ, 0 ≤ m ∧ m ≤ (cfgM2.geometry.net_span : ℝ) * 0.5 ∧
        |energyEquation (calculateStiffnessCoefficients cfgM2).k1
            (calculateStiffnessCoefficients cfgM2).k2
            (calculateStiffnessCoefficients cfgM2).k3
            (cfgM2.impact.mass : ℝ) (cfgM2.impact.fall_height : ℝ) m| < 1e-6 ∧
        (computeResult cfgM2).structural_response.max_deflection = max 0 m) ∨
    (bisectLoop (energyEquation (calculateStiffnessCoefficients cfgM2).k1
          (calculateStiffnessCoefficients cfgM2).k2
          (calculateStiffnessCoefficients cfgM2).k3
          (cfgM2.impact.mass : ℝ) (cfgM2.impact.fall_height : ℝ)) 1e-6 100 0
        ((cfgM2.geometry.net_span : ℝ) * 0.5) = none ∧
      (computeResult cfgM2).structural_response.max_deflection =
        min ((cfgM2.impact.mass : ℝ) * gravity * (cfgM2.impact.fall_height : ℝ) /
            (calculateStiffnessCoefficients cfgM2).k1)
          ((cfgM2.geometry.net_span : ℝ) * 0.5))) :=
  ⟨valid_cfgM2, solver_return_paths cfgM2 valid_cfgM2⟩

/-- Counterexample to C3 as stated: on the validated configuration
`cfgM2` the loop exhausts all 100 iterations (`bisectLoop` returns
`none`) and the returned deflection is exactly the linear fallback — the
fallback is the iteration-exhaustion path, not a path that avoids it, and
no best midpoint is returned. -/
theorem solver_fallback_counterexample :
    validateConfig cfgM2 = [] ∧
    bisectLoop (energyEquation (calculateStiffnessCoefficients cfgM2).k1
        (calculateStiffnessCoefficients cfgM2).k2
        (calculateStiffnessCoefficients cfgM2).k3
        (cfgM2.impact.mass : ℝ) (cfgM2.impact.fall_height : ℝ)) 1e-6 100 0
      ((cfgM2.geometry.net_span : ℝ) * 0.5) = none ∧
    (computeResult cfgM2).structural_response.max_deflection =
      min ((cfgM2.impact.mass : ℝ) * gravity * (cfgM2.impact.fall_height : ℝ) /
          (calculateStiffnessCoefficients cfgM2).k1)
        ((cfgM2.geometry.net_span : ℝ) * 0.5) :=
  ⟨valid_cfgM2, bisect_cfgM2_none, by
    rw [result_max_deflection, calculateMaxDeflection_of_none bisect_cfgM2_none]⟩

/-- Claim C5 (amended): for every configuration that passes validation
the stiffness coefficients are exactly the three stated formulas with
`θ = atan(0.1·L/(L/2)) = atan(0.2)`, and they are all non-negative
provided the (unvalidated) cross-section area is non-negative. -/
theorem stiffness_formulas_and_nonneg (c : Config)
    (hv : validateConfig c = []) :
    ((calculateStiffnessCoefficients c).k1 =
        ((c.geometry.num_strands : ℝ) * (c.material.elastic_modulus : ℝ) *
          (c.material.cross_section_area : ℝ) / (c.geometry.net_span : ℝ)) *
        Real.cos (Real.arctan 0.2) ^ 2 ∧
      (calculateStiffnessCoefficients c).k2 =
        ((c.geometry.num_strands : ℝ) * (c.material.elastic_modulus : ℝ) *
          (c.material.cross_section_area : ℝ) / (c.geometry.net_span : ℝ) ^ 2) *
        Real.sin (Real.arctan 0.2) * Real.cos (Real.arctan 0.2) ^ 2 ∧
      (calculateStiffnessCoefficients c).k3 =
        ((c.geometry.num_strands : ℝ) * (c.material.elastic_modulus : ℝ) *
          (c.material.cross_section_area : ℝ) / (c.geometry.net_span : ℝ) ^ 3) *
        Real.sin (Real.arctan 0.2) ^ 2 * Real.cos (Real.arctan 0.2) ^ 2) ∧
    (0 ≤ c.material.cross_section_area →
      0 ≤ (calculateStiffnessCoefficients c).k1 ∧
      0 ≤ (calculateStiffnessCoefficients c).k2 ∧
      0 ≤ (calculateStiffnessCoefficients c).k3) := by
  obtain ⟨hE, _, hL, hn, _, _⟩ := validateConfig_eq_nil.mp hv
  have hL0 : (c.geometry.net_span : ℝ) ≠ 0 := by
    have : (0 : ℝ) < (c.geometry.net_span : ℝ) := by exact_mod_cast hL
    linarith
  have ht := theta_eq hL0
  have hE' : (0 : ℝ) ≤ (c.material.elastic_modulus : ℝ) := by
    have : (0 : ℝ) < (c.material.elastic_modulus : ℝ) := by exact_mod_cast hE
    linarith
  have hn' : (0 : ℝ) ≤ (c.geometry.num_strands : ℝ) := by
    have : (0 : ℝ) < (c.geometry.num_strands : ℝ) := by exact_mod_cast hn
    linarith
  have hLr : (0 : ℝ) ≤ (c.geometry.net_span : ℝ) := by
    have : (0 : ℝ) < (c.geometry.net_span : ℝ) := by exact_mod_cast hL
    linarith
  constructor
  · unfold calculateStiffnessCoefficients
    rw [ht]
    exact ⟨rfl, rfl, rfl⟩
  · intro hA
    have hA' : (0 : ℝ) ≤ (c.material.cross_section_area : ℝ) := by exact_mod_cast hA
    unfold calculateStiffnessCoefficients
    rw [ht]
    refine ⟨?_, ?_, ?_⟩
    · exact mul_nonneg
        (div_nonneg (mul_nonneg (mul_nonneg hn' hE') hA') hLr)
        (sq_nonneg _)
    · exact mul_nonneg (mul_nonneg
        (div_nonneg (mul_nonneg (mul_nonneg hn' hE') hA') (pow_nonneg hLr 2))
        sin_arctan_nonneg) (sq_nonneg _)
    · exact mul_nonneg (mul_nonneg
        (div_nonneg (mul_nonneg (mul_nonneg hn' hE') hA') (pow_nonneg hLr 3))
        (sq_nonneg _)) (sq_nonneg _)

/-- Witness for C5 at the concrete configuration `cfgM1`. -/
theorem stiffness_formulas_witness :
    validateConfig cfgM1 = [] ∧
    (((calculateStiffnessCoefficients cfgM1).k1 =
        ((cfgM1.geometry.num_strands : ℝ) * (cfgM1.material.elastic_modulus : ℝ) *
          (cfgM1.material.cross_section_area : ℝ) / (cfgM1.geometry.net_span : ℝ)) *
        Real.cos (Real.arctan 0.2) ^ 2 ∧
      (calculateStiffnessCoefficients cfgM1).k2 =
        ((cfgM1.geometry.num_strands : ℝ) * (cfgM1.material.elastic_modulus : ℝ) *
          (cfgM1.material.cross_section_area : ℝ) /
            (cfgM1.geometry.net_span : ℝ) ^ 2) *
        Real.sin (Real.arctan 0.2) * Real.cos (Real.arctan 0.2) ^ 2 ∧
      (calculateStiffnessCoefficients cfgM1).k3 =
        ((cfgM1.geometry.num_strands : ℝ) * (cfgM1.material.elastic_modulus : ℝ) *
          (cfgM1.material.cross_section_area : ℝ) /
            (cfgM1.geometry.net_span : ℝ) ^ 3) *
        Real.sin (Real.arctan 0.2) ^ 2 * Real.cos (Real.arctan 0.2) ^ 2) ∧
    (0 ≤ cfgM1.material.cross_section_area →
      0 ≤ (calculateStiffnessCoefficients cfgM1).k1 ∧
      0 ≤ (calculateStiffnessCoefficients cfgM1).k2 ∧
      0 ≤ (calculateStiffnessCoefficients cfgM1).k3)) :=
  ⟨valid_cfgM1, stiffness_formulas_and_nonneg cfgM1 valid_cfgM1⟩

/-- Counterexample to C5 as stated: `cfgA` passes validation with
cross-section area `-1`, and its first stiffness coefficient is
negative. -/
theorem stiffness_neg_counterexample :
    validateConfig cfgA = [] ∧ (calculateStiffnessCoefficients cfgA).k1 < 0 := by
  refine ⟨valid_cfgA, ?_⟩
  rw [ks_cfgA]
  show -(25 / 26 : ℝ) < 0
  norm_num

/-- The bisection run of `cfgW1` hits the tolerance at the first
midpoint, stated over the coefficients the engine computes for it. -/
lemma bisect_cfgW1_some :
    bisectLoop (energyEquation (calculateStiffnessCoefficients cfgW1).k1
        (calculateStiffnessCoefficients cfgW1).k2
        (calculateStiffnessCoefficients cfgW1).k3
        (cfgW1.impact.mass : ℝ) (cfgW1.impact.fall_height : ℝ)) 1e-6 100 0
      ((cfgW1.geometry.net_span : ℝ) * 0.5) = some (1 / 4) := by
  show bisectLoop (energyEquation
      (calculateStiffnessCoefficients (cfgH (310660/10000000))).k1
      (calculateStiffnessCoefficients (cfgH (310660/10000000))).k2
      (calculateStiffnessCoefficients (cfgH (310660/10000000))).k3
      ((cfgH (310660/10000000)).impact.mass : ℝ)
      ((cfgH (310660/10000000)).impact.fall_height : ℝ)) 1e-6 100 0
    (((cfgH (310660/10000000)).geometry.net_span : ℝ) * 0.5) = some (1 / 4)
  rw [ks_cfgH]
  rw [show (((cfgH (310660/10000000)).geometry.net_span : ℝ) * 0.5) = 0.5 from by
    norm_num [cfgH, geoW]]
  exact bisectLoop_first_hit
    (energy_cfgH_quarter _ (by push_cast; norm_num) (by push_cast; norm_num))

/-- The bisection run of `cfgW2` hits the tolerance at the first
midpoint. -/
lemma bisect_cfgW2_some :
    bisectLoop (energyEquation (calculateStiffnessCoefficients cfgW2).k1
        (calculateStiffnessCoefficients cfgW2).k2
        (calculateStiffnessCoefficients cfgW2).k3
        (cfgW2.impact.mass : ℝ) (cfgW2.impact.fall_height : ℝ)) 1e-6 100 0
      ((cfgW2.geometry.net_span : ℝ) * 0.5) = some (1 / 4) := by
  show bisectLoop (energyEquation
      (calculateStiffnessCoefficients (cfgH (310666/10000000))).k1
      (calculateStiffnessCoefficients (cfgH (310666/10000000))).k2
      (calculateStiffnessCoefficients (cfgH (310666/10000000))).k3
      ((cfgH (310666/10000000)).impact.mass : ℝ)
      ((cfgH (310666/10000000)).impact.fall_height : ℝ)) 1e-6 100 0
    (((cfgH (310666/10000000)).geometry.net_span : ℝ) * 0.5) = some (1 / 4)
  rw [ks_cfgH]
  rw [show (((cfgH (310666/10000000)).geometry.net_span : ℝ) * 0.5) = 0.5 from by
    norm_num [cfgH, geoW]]
  exact bisectLoop_first_hit
    (energy_cfgH_quarter _ (by push_cast; norm_num) (by push_cast; norm_num))

/-- Claim C4 (amended): with material, geometry and mass fixed and both
bisection runs returning through the tolerance branch, a strictly larger
fall height never yields a smaller maximum deflection.  (When the
fallback path is involved, monotonicity can fail — see the
counterexample.) -/
theorem deflection_mono_in_fall_height_of_converged (c1 c2 : Config)
    (hv1 : validateConfig c1 = []) (hv2 : validateConfig c2 = [])
    (hmat : c1.material = c2.material) (hgeo : c1.geometry = c2.geometry)
    (hmass : c1.impact.mass = c2.impact.mass)
    (hh : c1.impact.fall_height < c2.impact.fall_height)
    (d1 d2 : ℝ)
    (h1 : bisectLoop (energyEquation (calculateStiffnessCoefficients c1).k1
        (calculateStiffnessCoefficients c1).k2
        (calculateStiffnessCoefficients c1).k3
        (c1.impact.mass : ℝ) (c1.impact.fall_height : ℝ)) 1e-6 100 0
      ((c1.geometry.net_span : ℝ) * 0.5) = some d1)
    (h2 : bisectLoop (energyEquation (calculateStiffnessCoefficients c2).k1
        (calculateStiffnessCoefficients c2).k2
        (calculateStiffnessCoefficients c2).k3
        (c2.impact.mass : ℝ) (c2.impact.fall_height : ℝ)) 1e-6 100 0
      ((c2.geometry.net_span : ℝ) * 0.5) = some d2) :
    (computeResult c1).structural_response.max_deflection ≤
      (computeResult c2).structural_response.max_deflection := by
  have hks : calculateStiffnessCoefficients c2 = calculateStiffnessCoefficients c1 := by
    unfold calculateStiffnessCoefficients theta
    rw [hmat, hgeo]
  have hspan : (c2.geometry.net_span : ℝ) = (c1.geometry.net_span : ℝ) := by
    rw [hgeo]
  have hmcast : (c2.impact.mass : ℝ) = (c1.impact.mass : ℝ) := by rw [hmass]
  have hm0 : (0 : ℝ) < (c1.impact.mass : ℝ) := by
    exact_mod_cast (validateConfig_eq_nil.mp hv1).2.2.2.2.1
  have hhr : (c1.impact.fall_height : ℝ) ≤ (c2.impact.fall_height : ℝ) := by
    exact_mod_cast hh.le
  have hL : (0 : ℝ) < (c1.geometry.net_span : ℝ) := by
    exact_mod_cast (validateConfig_eq_nil.mp hv1).2.2.1
  have hbr : (0 : ℝ) ≤ (c1.geometry.net_span : ℝ) * 0.5 := by linarith
  have h2' := h2
  rw [hks, hspan, hmcast] at h2'
  have hf : ∀ x, energyEquation (calculateStiffnessCoefficients c1).k1
      (calculateStiffnessCoefficients c1).k2 (calculateStiffnessCoefficients c1).k3
      (c1.impact.mass : ℝ) (c2.impact.fall_height : ℝ) x ≤
      energyEquation (calculateStiffnessCoefficients c1).k1
      (calculateStiffnessCoefficients c1).k2 (calculateStiffnessCoefficients c1).k3
      (c1.impact.mass : ℝ) (c1.impact.fall_height : ℝ) x := by
    intro x
    unfold energyEquation gravity
    have := mul_le_mul_of_nonneg_left hhr
      (by positivity : (0 : ℝ) ≤ (c1.impact.mass : ℝ) * 9.81)
    nlinarith [this]
  have hd12 : d1 ≤ d2 :=
    bisectLoop_le_bisectLoop (by norm_num) hf le_rfl hbr h1 h2'
  rw [result_max_deflection, calculateMaxDeflection_of_some h1,
    result_max_deflection, calculateMaxDeflection_of_some h2]
  exact hd12

/-- Witness for C4 at `cfgW1` (fall height `0.0310660`) and `cfgW2`
(fall height `0.0310666`), both converging at the first midpoint. -/
theorem deflection_mono_witness :
    (validateConfig cfgW1 = [] ∧ validateConfig cfgW2 = [] ∧
      cfgW1.material = cfgW2.material ∧ cfgW1.geometry = cfgW2.geometry ∧
      cfgW1.impact.mass = cfgW2.impact.mass ∧
      cfgW1.impact.fall_height < cfgW2.impact.fall_height ∧
      bisectLoop (energyEquation (calculateStiffnessCoefficients cfgW1).k1
          (calculateStiffnessCoefficients cfgW1).k2
          (calculateStiffnessCoefficients cfgW1).k3
          (cfgW1.impact.mass : ℝ) (cfgW1.impact.fall_height : ℝ)) 1e-6 100 0
        ((cfgW1.geometry.net_span : ℝ) * 0.5) = some (1 / 4) ∧
      bisectLoop (energyEquation (calculateStiffnessCoefficients cfgW2).k1
          (calculateStiffnessCoefficients cfgW2).k2
          (calculateStiffnessCoefficients cfgW2).k3
          (cfgW2.impact.mass : ℝ) (cfgW2.impact.fall_height : ℝ)) 1e-6 100 0
        ((cfgW2.geometry.net_span : ℝ) * 0.5) = some (1 / 4)) ∧
    (computeResult cfgW1).structural_response.max_deflection ≤
      (computeResult cfgW2).structural_response.max_deflection :=
  ⟨⟨valid_cfgW1, valid_cfgW2, rfl, rfl, rfl,
      by norm_num [cfgW1, cfgW2, cfgH, impW], bisect_cfgW1_some, bisect_cfgW2_some⟩,
    deflection_mono_in_fall_height_of_converged cfgW1 cfgW2 valid_cfgW1 valid_cfgW2
      rfl rfl rfl (by norm_num [cfgW1, cfgW2, cfgH, impW]) (1 / 4) (1 / 4)
      bisect_cfgW1_some bisect_cfgW2_some⟩

/-- Counterexample to C4 as stated: `cfgM1` and `cfgM2` pass validation
and agree on everything except the fall height; the larger fall height
(`0.2` versus `0.03106634`) produces the *smaller* deflection
(`0.208` via the fallback versus `0.25` via the converged bisection). -/
theorem deflection_mono_counterexample :
    validateConfig cfgM1 = [] ∧ validateConfig cfgM2 = [] ∧
    cfgM1.material = cfgM2.material ∧ cfgM1.geometry = cfgM2.geometry ∧
    cfgM1.impact.mass = cfgM2.impact.mass ∧
    cfgM1.analysis = cfgM2.analysis ∧
    cfgM1.impact.fall_height < cfgM2.impact.fall_height ∧
    (computeResult cfgM2).structural_response.max_deflection <
      (computeResult cfgM1).structural_response.max_deflection := by
  refine ⟨valid_cfgM1, valid_cfgM2, rfl, rfl, rfl, rfl,
    by norm_num [cfgM1, cfgM2, cfgH, impW], ?_⟩
  rw [maxDeflection_cfgM1, maxDeflection_cfgM2]
  norm_num

end SafetyNet
